import Mathlib

/-!
# Verification of the jansarthi issue-lifecycle core

Shallow embedding of `app/models/issue.py`, `app/routes/reports.py`,
`app/schemas/issue.py` and `app/services/twilio.py` from the
`Tarakshgoyal/jansarthi` repository, together with proofs of the
specification's claims about the issue lifecycle, auto-assignment,
photo-attachment transactionality, proximity query and phone
normalisation.

Conventions of the embedding:
* SQL rows are Lean structures; the database session is an explicit
  `DBState` value threaded through the operations.  Database-generated
  identities are passed in as a fresh-id parameter; `created_at` /
  `updated_at` audit columns are omitted (no claim mentions them).
* Latitude/longitude (Python floats) are modelled as real numbers.
* The storage service (`storage_service.upload_file`,
  `storage_service.get_file_url`) and the settings object are
  parameters: an upload is a function `PhotoUpload → Except String String`
  (exception message or object key), presigning is `String → String`.
* A FastAPI `HTTPException` is an `HTTPError` value; an endpoint returns
  `Except HTTPError result` together with the database state after the
  call (`session.commit` points are where the returned state changes).
-/

/-- `IssueType` enum from `app/models/issue.py`. -/
inductive IssueType where
  | WATER
  | ELECTRICITY
  | ROAD
  | GARBAGE
deriving DecidableEq

/-- `IssueStatus` enum from `app/models/issue.py`: the six lifecycle
states in their documented forward order. -/
inductive IssueStatus where
  | REPORTED
  | ASSIGNED
  | REPRESENTATIVE_ACKNOWLEDGED
  | PWD_WORKING
  | PWD_COMPLETED
  | REPRESENTATIVE_REVIEWED
deriving DecidableEq

/-- `UserRole` enum from `app/models/issue.py`. -/
inductive UserRole where
  | USER
  | REPRESENTATIVE
  | PWD_WORKER
  | ADMIN
deriving DecidableEq

/-- `LocalityType` enum from `app/models/issue.py`. -/
inductive LocalityType where
  | WARD
  | VILLAGE
deriving DecidableEq

/-- Row of the `users` table (`User` model); auth columns not read by
the embedded routes (`mobile_number`, `is_verified`) are kept for
fidelity of the record shape. -/
structure UserR where
  id : Nat
  name : String
  mobile_number : String
  role : UserRole
  is_active : Bool
  is_verified : Bool
  locality_id : Option Nat
deriving DecidableEq

/-- Row of the `localities` table (`Locality` model). -/
structure LocalityR where
  id : Nat
  name : String
  type : LocalityType
  is_active : Bool
deriving DecidableEq

/-- Row of the `issues` table (`Issue` model). -/
structure IssueR where
  id : Nat
  issue_type : IssueType
  description : String
  latitude : ℝ
  longitude : ℝ
  locality_id : Option Nat
  status : IssueStatus
  user_id : Option Nat
  assigned_parshad_id : Option Nat
  assignment_notes : Option String
  progress_notes : Option String
  completion_description : Option String
  completion_photo_url : Option String
  completed_at : Option Nat
  completed_by_id : Option Nat

/-- Row of the `issue_photos` table (`IssuePhoto` model). -/
structure PhotoR where
  issue_id : Nat
  photo_url : String
  filename : String
  file_size : Nat
  content_type : String
deriving DecidableEq

/-- The persistent store: the four tables the embedded routes touch. -/
structure DBState where
  users : List UserR
  localities : List LocalityR
  issues : List IssueR
  photos : List PhotoR

/-- The settings consulted by `create_issue`
(`settings.max_photos_per_issue`, `settings.allowed_image_types`,
`settings.max_file_size`); an explicit configuration record as the spec
prescribes for testability. -/
structure Config where
  max_photos_per_issue : Nat
  allowed_image_types : List String
  max_file_size : Nat

/-- A multipart `UploadFile`: optional filename and content type, and
the byte content (`await photo.read()`), modelled as a list of bytes. -/
structure PhotoUpload where
  filename : Option String
  content_type : Option String
  content : List Nat
deriving DecidableEq

/-- A FastAPI `HTTPException`: status code and detail string. -/
structure HTTPError where
  status_code : Nat
  detail : String
deriving DecidableEq

/-- Python's `x or default` on an optional string: `None` and the empty
string are falsy. -/
def pyOrStr (s : Option String) (d : String) : String :=
  match s with
  | none => d
  | some f => if f = "" then d else f

/-- The request data of `POST /api/reports` (`create_issue` parameters
after FastAPI form validation); `user_id` is `current_user.id`. -/
structure CreateIssueRequest where
  issue_type : IssueType
  description : String
  latitude : ℝ
  longitude : ℝ
  locality_id : Option Nat
  photos : List PhotoUpload
  user_id : Nat

/-- The `IssueResponse` schema from `app/schemas/issue.py` (photo
entries are carried as `PhotoR` records whose `photo_url` holds the
presigned URL). -/
structure IssueResponseM where
  id : Nat
  issue_type : IssueType
  description : String
  latitude : ℝ
  longitude : ℝ
  locality_id : Option Nat
  locality_name : Option String
  locality_type : Option LocalityType
  status : IssueStatus
  user_id : Option Nat
  assigned_parshad_id : Option Nat
  assignment_message : Option String
  completion_description : Option String
  completion_photo_url : Option String
  completed_at : Option Nat
  completed_by_id : Option Nat
  photos : List PhotoR

/-- The membership test `photo.content_type in settings.allowed_image_types`
(a `None` content type is not a member of a list of strings). -/
def content_type_allowed (cfg : Config) (p : PhotoUpload) : Bool :=
  match p.content_type with
  | some t => cfg.allowed_image_types.contains t
  | none => false

/-- The per-photo validation loop of `create_issue` (reports.py lines
128-143): for each photo, reject a content type outside the whitelist,
then reject a byte length above `max_file_size`; first violation wins. -/
def validate_photo_list (cfg : Config) : List PhotoUpload → Option HTTPError
  | [] => none
  | p :: rest =>
    if ¬ content_type_allowed cfg p then
      some ⟨400, "Invalid file type: " ++ (pyOrStr p.content_type "None") ++
        ". Allowed types: " ++ String.intercalate ", " cfg.allowed_image_types⟩
    else if p.content.length > cfg.max_file_size then
      some ⟨400, "File " ++ (pyOrStr p.filename "None") ++
        " exceeds maximum size of " ++ toString (cfg.max_file_size / (1024 * 1024)) ++ "MB"⟩
    else
      validate_photo_list cfg rest

/-- The representative lookup of `create_issue` (reports.py lines
152-158): `select(User).where(role == REPRESENTATIVE, locality_id ==
lid, is_active == True)` followed by `.first()`.  Only the `users`
table is consulted. -/
def find_parshad (users : List UserR) (lid : Nat) : Option UserR :=
  (users.filter fun u =>
    decide (u.role = UserRole.REPRESENTATIVE ∧ u.locality_id = some lid ∧
      u.is_active = true)).head?

/-- The photo upload-and-record loop of `create_issue` (reports.py
lines 185-205): for each photo, upload to the blob store and stage an
`IssuePhoto` row; the first exception aborts the loop.  Returns the
staged rows or the exception text. -/
def attach_photos (upload : PhotoUpload → Except String String) (issue_id : Nat) :
    List PhotoUpload → List PhotoR → Except String (List PhotoR)
  | [], acc => .ok acc
  | p :: rest, acc =>
    match upload p with
    | .error e => .error e
    | .ok object_name =>
      attach_photos upload issue_id rest (acc ++
        [{ issue_id := issue_id, photo_url := object_name,
           filename := pyOrStr p.filename "image.jpg",
           file_size := p.content.length,
           content_type := pyOrStr p.content_type "image/jpeg" }])

/-- The assignment block of `create_issue` (reports.py lines 145-165):
with no `locality_id` nothing is assigned; otherwise the first active
representative of the locality, if any, fixes
`(assigned_parshad_id, assignment_message, initial_status)`. -/
def resolve_assignment (users : List UserR) (locality_id : Option Nat) :
    Option Nat × Option String × IssueStatus :=
  match locality_id with
  | none => (none, none, IssueStatus.REPORTED)
  | some lid =>
    match find_parshad users lid with
    | some parshad =>
      (some parshad.id,
       some ("Auto-assigned to Parshad " ++ parshad.name ++ " of ward " ++ toString lid),
       IssueStatus.ASSIGNED)
    | none =>
      (none,
       some ("No Parshad assigned to ward " ++ toString lid ++ ". Issue is unassigned."),
       IssueStatus.REPORTED)

/-- The `Issue(...)` constructor call of reports.py lines 168-178: the
row staged for insertion, with the assignment block's outcome. -/
def mk_new_issue (users : List UserR) (new_id : Nat) (req : CreateIssueRequest) : IssueR :=
  let asg := resolve_assignment users req.locality_id
  { id := new_id
    issue_type := req.issue_type
    description := req.description
    latitude := req.latitude
    longitude := req.longitude
    locality_id := req.locality_id
    status := asg.2.2
    user_id := some req.user_id
    assigned_parshad_id := asg.1
    assignment_notes := asg.2.1
    progress_notes := none
    completion_description := none
    completion_photo_url := none
    completed_at := none
    completed_by_id := none }

/-- `POST /api/reports` (`create_issue`, reports.py lines 94-237).
Returns the HTTP outcome and the committed database state.  The issue
row is committed (line 181) before the photo loop; a photo failure
rolls back only the staged photo rows (line 209) and surfaces one
aggregate 500 error. -/
def create_issue (cfg : Config) (upload : PhotoUpload → Except String String)
    (get_file_url : String → String) (db : DBState) (new_id : Nat)
    (req : CreateIssueRequest) : Except HTTPError IssueResponseM × DBState :=
  if req.photos.length > cfg.max_photos_per_issue then
    (.error ⟨400, "Maximum " ++ toString cfg.max_photos_per_issue ++ " photos allowed"⟩, db)
  else
    match validate_photo_list cfg req.photos with
    | some e => (.error e, db)
    | none =>
      let asg := resolve_assignment db.users req.locality_id
      let new_issue : IssueR := mk_new_issue db.users new_id req
      let db1 : DBState := { db with issues := db.issues ++ [new_issue] }
      match attach_photos upload new_id req.photos [] with
      | .error e =>
        (.error ⟨500, "Failed to upload photo: " ++ e⟩, db1)
      | .ok recs =>
        let db2 : DBState := { db1 with photos := db1.photos ++ recs }
        (.ok
          { id := new_id
            issue_type := req.issue_type
            description := req.description
            latitude := req.latitude
            longitude := req.longitude
            locality_id := req.locality_id
            locality_name := none
            locality_type := none
            status := asg.2.2
            user_id := some req.user_id
            assigned_parshad_id := asg.1
            assignment_message := asg.2.1
            completion_description := none
            completion_photo_url := none
            completed_at := none
            completed_by_id := none
            photos := recs.map fun r => { r with photo_url := get_file_url r.photo_url } },
         db2)

/-- `build_issue_response` (reports.py lines 36-85): the read-side
response for one issue.  The issue's photo rows (the ORM relationship)
are the `issue_photos` rows whose `issue_id` matches; all stored object
keys are turned into presigned URLs.  A `completion_photo_url` is
presigned only when truthy (Python: `None` and `""` are falsy); the
locality is looked up only when `issue.locality_id` is truthy (Python:
`None` and `0` are falsy).  `assignment_message` is the literal `None`
of line 77. -/
def build_issue_response (issue : IssueR) (get_file_url : String → String)
    (db : DBState) : IssueResponseM :=
  let photos := (db.photos.filter fun p => decide (p.issue_id = issue.id)).map
    fun p => { p with photo_url := get_file_url p.photo_url }
  let completion_photo_url :=
    match issue.completion_photo_url with
    | none => none
    | some s => if s = "" then none else some (get_file_url s)
  let loc : Option LocalityR :=
    match issue.locality_id with
    | none => none
    | some lid =>
      if lid = 0 then none
      else (db.localities.filter fun l => decide (l.id = lid)).head?
  { id := issue.id
    issue_type := issue.issue_type
    description := issue.description
    latitude := issue.latitude
    longitude := issue.longitude
    locality_id := issue.locality_id
    locality_name := loc.map LocalityR.name
    locality_type := loc.map LocalityR.type
    status := issue.status
    user_id := issue.user_id
    assigned_parshad_id := issue.assigned_parshad_id
    assignment_message := none
    completion_description := issue.completion_description
    completion_photo_url := completion_photo_url
    completed_at := issue.completed_at
    completed_by_id := issue.completed_by_id
    photos := photos }

/-- `GET /api/reports/\x7bissue_id\x7d` (`get_issue`, reports.py lines
378-401): 404 when the id is unknown, otherwise the
`build_issue_response` view. -/
def get_issue (get_file_url : String → String) (db : DBState) (issue_id : Nat) :
    Except HTTPError IssueResponseM :=
  match (db.issues.filter fun i => decide (i.id = issue_id)).head? with
  | none => .error ⟨404, "Issue with id " ++ toString issue_id ++ " not found"⟩
  | some issue => .ok (build_issue_response issue get_file_url db)

/-- The `LocalityPublicResponse` of reports.py lines 418-426:
locality info plus `(id, name)` pairs of its representatives. -/
structure LocalityPublicResp where
  id : Nat
  name : String
  type : LocalityType
  representatives : List (Nat × String)
deriving DecidableEq

/-- `GET /api/reports/localities/\x7blocality_id\x7d`
(`get_locality_details`, reports.py lines 497-530): a missing locality
and an inactive one both raise the same
`404 "Locality not found"`; otherwise the locality with its active
representatives. -/
def get_locality_details (db : DBState) (locality_id : Nat) :
    Except HTTPError LocalityPublicResp :=
  match (db.localities.filter fun l => decide (l.id = locality_id)).head? with
  | none => .error ⟨404, "Locality not found"⟩
  | some locality =>
    if locality.is_active = false then .error ⟨404, "Locality not found"⟩
    else
      .ok { id := locality.id
            name := locality.name
            type := locality.type
            representatives :=
              ((db.users.filter fun u =>
                  decide (u.locality_id = some locality.id ∧
                    u.role = UserRole.REPRESENTATIVE ∧ u.is_active = true)).map
                fun r => (r.id, r.name)) }

/-- `math.radians`: degrees to radians. -/
noncomputable def radians (x : ℝ) : ℝ := x * (Real.pi / 180)

/-- The `haversine_distance` helper of `get_issues_for_map`
(reports.py lines 348-361): great-circle distance in kilometers on a
sphere of radius 6371 km, degree inputs. -/
noncomputable def haversine_distance (lat1 lon1 lat2 lon2 : ℝ) : ℝ :=
  6371 *
    (2 * Real.arcsin (Real.sqrt
      (Real.sin ((radians lat2 - radians lat1) / 2) ^ 2 +
        Real.cos (radians lat1) * Real.cos (radians lat2) *
          Real.sin ((radians lon2 - radians lon1) / 2) ^ 2)))

/-- The optional equality filters of `get_issues_for_map` (reports.py
lines 338-341); every `IssueType`/`IssueStatus` enum value is truthy in
Python, so `some t` always filters. -/
def matches_filters (t? : Option IssueType) (s? : Option IssueStatus)
    (i : IssueR) : Bool :=
  (match t? with | some t => decide (i.issue_type = t) | none => true) &&
  (match s? with | some s => decide (i.status = s) | none => true)

/-- `GET /api/reports/map` (`get_issues_for_map`, reports.py lines
311-370): equality filters, then the in-process Haversine radius
filter with `distance <= radius`. -/
noncomputable def get_issues_for_map (latitude longitude radius : ℝ)
    (t? : Option IssueType) (s? : Option IssueStatus)
    (issues : List IssueR) : List IssueR :=
  (issues.filter (matches_filters t? s?)).filter fun issue =>
    decide (haversine_distance latitude longitude issue.latitude issue.longitude ≤ radius)

/-- `re.sub(r'\D', '', s)`: drop every non-digit character. -/
def stripNonDigits (s : List Char) : List Char := s.filter Char.isDigit

/-- `normalize_phone_number` from `app/services/twilio.py` (lines
13-47), on strings as character lists: keep a leading `+` and strip
non-digits after it; otherwise strip non-digits, prepend the `91`
country code unless already present (10-digit numbers always get it),
and prepend `+`. -/
def normalize_phone_number (phone : List Char) : List Char :=
  if phone.take 1 = ['+'] then
    '+' :: stripNonDigits (phone.drop 1)
  else
    let digits := stripNonDigits phone
    let digits :=
      if ¬ (digits.take 2 = ['9', '1']) ∨ digits.length = 10 then
        '9' :: '1' :: digits
      else digits
    '+' :: digits

/-- Modelled from the spec: the repository source under `src/` contains
no `TransitionIssue` endpoint (only the `IssueStatus` enum and the
`IssueStatusUpdate` schema), so the caller of a transition is modelled
from §4.2: either the system (creation-time auto-assignment) or a
user. -/
inductive Actor where
  | system
  | user (u : UserR)

/-- Modelled from the spec: the payload of the
`PWD_WORKING → PWD_COMPLETED` transition, "requires completion
description and, optionally, a completion photo" (§4.2). -/
structure CompletionPayload where
  description : String
  photo_url : Option String
deriving DecidableEq

/-- Modelled from the spec: the `InvalidTransition` condition of §7,
"surfaced with the expected vs. actual state", and the `NotFound`
condition for an unknown issue id. -/
inductive TransitionError where
  | InvalidTransition (current target : IssueStatus)
  | NotFound (issue_id : Nat)
deriving DecidableEq

/-- Modelled from the spec: the fixed six-state forward ordering of
§4.2 as the single authoritative "next legal state" lookup; the
terminal state has none. -/
def nextStatus : IssueStatus → Option IssueStatus
  | .REPORTED => some .ASSIGNED
  | .ASSIGNED => some .REPRESENTATIVE_ACKNOWLEDGED
  | .REPRESENTATIVE_ACKNOWLEDGED => some .PWD_WORKING
  | .PWD_WORKING => some .PWD_COMPLETED
  | .PWD_COMPLETED => some .REPRESENTATIVE_REVIEWED
  | .REPRESENTATIVE_REVIEWED => none

/-- Position of a status in the §4.2 ordering. -/
def statusIdx : IssueStatus → Nat
  | .REPORTED => 0
  | .ASSIGNED => 1
  | .REPRESENTATIVE_ACKNOWLEDGED => 2
  | .PWD_WORKING => 3
  | .PWD_COMPLETED => 4
  | .REPRESENTATIVE_REVIEWED => 5

/-- Modelled from the spec: the caller-role column of the §4.2
transition table.  `REPORTED → ASSIGNED` is the system's creation-time
step; acknowledgement and review are reserved to the assigned
representative; the two PWD steps to a crew worker. -/
def role_permits (issue : IssueR) (actor : Actor) (target : IssueStatus) : Bool :=
  match target, actor with
  | .ASSIGNED, .system => true
  | .REPRESENTATIVE_ACKNOWLEDGED, .user u =>
    decide (u.role = UserRole.REPRESENTATIVE ∧ issue.assigned_parshad_id = some u.id)
  | .PWD_WORKING, .user u => decide (u.role = UserRole.PWD_WORKER)
  | .PWD_COMPLETED, .user u => decide (u.role = UserRole.PWD_WORKER)
  | .REPRESENTATIVE_REVIEWED, .user u =>
    decide (u.role = UserRole.REPRESENTATIVE ∧ issue.assigned_parshad_id = some u.id)
  | _, _ => false

/-- Modelled from the spec: the `PWD_COMPLETED` target requires a
completion payload (description; photo optional); other targets carry
none. -/
def payload_ok (target : IssueStatus) (payload : Option CompletionPayload) : Bool :=
  match target with
  | .PWD_COMPLETED => payload.isSome
  | _ => payload.isNone

/-- The id of the acting user (the system has none). -/
def actorId : Actor → Option Nat
  | .system => none
  | .user u => some u.id

/-- Modelled from the spec: the state update of a legal transition;
the `PWD_WORKING → PWD_COMPLETED` step "sets completed_at to current
time and completed_by to the acting worker" and stores the payload's
description and optional photo; every other step only moves the
status. -/
def apply_transition (issue : IssueR) (actor : Actor) (target : IssueStatus)
    (payload : Option CompletionPayload) (now : Nat) : IssueR :=
  match target, payload with
  | .PWD_COMPLETED, some pl =>
    { issue with
      status := target
      completion_description := some pl.description
      completion_photo_url := pl.photo_url
      completed_at := some now
      completed_by_id := actorId actor }
  | _, _ => { issue with status := target }

/-- Modelled from the spec: `TransitionIssue` on one issue value — the
target must be the immediate successor of the current status, the
caller role must match the §4.2 table and the payload must fit the
target; any violated precondition surfaces `InvalidTransition` with
the current and requested states, and no field changes. -/
def transition_issue (issue : IssueR) (actor : Actor) (target : IssueStatus)
    (payload : Option CompletionPayload) (now : Nat) : Except TransitionError IssueR :=
  if nextStatus issue.status = some target ∧
      role_permits issue actor target = true ∧ payload_ok target payload = true then
    .ok (apply_transition issue actor target payload now)
  else
    .error (.InvalidTransition issue.status target)

/-- Modelled from the spec: `TransitionIssue(issue_id, ...)` against
the store — look the issue up, run the transition, and persist the new
row only on success; a failed call returns the error and the store
untouched. -/
def transition_issue_store (db : DBState) (issue_id : Nat) (actor : Actor)
    (target : IssueStatus) (payload : Option CompletionPayload) (now : Nat) :
    Except TransitionError IssueR × DBState :=
  match (db.issues.filter fun i => decide (i.id = issue_id)).head? with
  | none => (.error (.NotFound issue_id), db)
  | some issue =>
    match transition_issue issue actor target payload now with
    | .error e => (.error e, db)
    | .ok issue1 =>
      (.ok issue1,
       { db with issues := db.issues.map fun i =>
           if i.id = issue_id then issue1 else i })

/-- One status-changing call re-entering the lifecycle engine. -/
structure TransitionEvent where
  actor : Actor
  target : IssueStatus
  payload : Option CompletionPayload
  time : Nat

/-- The stored issue after one call: updated on success, unchanged on
a rejected transition. -/
def run_transition (issue : IssueR) (ev : TransitionEvent) : IssueR :=
  match transition_issue issue ev.actor ev.target ev.payload ev.time with
  | .ok i => i
  | .error _ => issue

/-- The stored issue after a sequence of transition calls. -/
def run_events (issue : IssueR) (evs : List TransitionEvent) : IssueR :=
  evs.foldl run_transition issue

theorem validate_photo_list_eq_none_iff (cfg : Config) (ps : List PhotoUpload) :
    validate_photo_list cfg ps = none ↔
      ∀ p ∈ ps, content_type_allowed cfg p = true ∧
        p.content.length ≤ cfg.max_file_size := by
  induction ps with
  | nil => simp [validate_photo_list]
  | cons p rest ih =>
    by_cases h1 : content_type_allowed cfg p
    · by_cases h2 : p.content.length > cfg.max_file_size
      · simp [validate_photo_list, h1, h2]
      · simp [validate_photo_list, h1, h2, ih]
        intro _
        omega
    · simp [validate_photo_list, h1]

theorem find_parshad_mem (users : List UserR) (lid : Nat) (p : UserR)
    (h : find_parshad users lid = some p) :
    p ∈ users ∧ p.role = UserRole.REPRESENTATIVE ∧ p.locality_id = some lid ∧
      p.is_active = true := by
  have hmem : p ∈ users.filter fun u =>
      decide (u.role = UserRole.REPRESENTATIVE ∧ u.locality_id = some lid ∧
        u.is_active = true) := by
    unfold find_parshad at h
    exact List.mem_of_mem_head? h
  have := List.mem_filter.mp hmem
  simpa using this

theorem find_parshad_isSome_of_mem (users : List UserR) (lid : Nat) (u : UserR)
    (hu : u ∈ users) (hrole : u.role = UserRole.REPRESENTATIVE)
    (hloc : u.locality_id = some lid) (hact : u.is_active = true) :
    (find_parshad users lid).isSome = true := by
  unfold find_parshad
  cases hf : (users.filter fun u =>
      decide (u.role = UserRole.REPRESENTATIVE ∧ u.locality_id = some lid ∧
        u.is_active = true)) with
  | nil =>
    have : u ∈ users.filter fun u =>
        decide (u.role = UserRole.REPRESENTATIVE ∧ u.locality_id = some lid ∧
          u.is_active = true) :=
      List.mem_filter.mpr ⟨hu, by simp [hrole, hloc, hact]⟩
    rw [hf] at this
    cases this
  | cons a t => simp

theorem find_parshad_eq_none_of_no_rep (users : List UserR) (lid : Nat)
    (h : ∀ u ∈ users, ¬(u.role = UserRole.REPRESENTATIVE ∧ u.locality_id = some lid ∧
      u.is_active = true)) :
    find_parshad users lid = none := by
  unfold find_parshad
  have : (users.filter fun u =>
      decide (u.role = UserRole.REPRESENTATIVE ∧ u.locality_id = some lid ∧
        u.is_active = true)) = [] := by
    rw [List.filter_eq_nil_iff]
    intro u hu
    simpa using h u hu
  rw [this]
  rfl

theorem create_issue_state_of_valid (cfg : Config)
    (upload : PhotoUpload → Except String String) (gfu : String → String)
    (db : DBState) (new_id : Nat) (req : CreateIssueRequest)
    (h1 : req.photos.length ≤ cfg.max_photos_per_issue)
    (h2 : validate_photo_list cfg req.photos = none) :
    (create_issue cfg upload gfu db new_id req).2.issues =
      db.issues ++ [mk_new_issue db.users new_id req] := by
  unfold create_issue
  rw [if_neg (by omega), h2]
  cases h : attach_photos upload new_id req.photos [] <;> simp

/-- Active representative "Asha" of locality 5 (the spec's §8 example
actor). -/
def repUser : UserR :=
  { id := 42, name := "Asha", mobile_number := "9876543210",
    role := UserRole.REPRESENTATIVE, is_active := true, is_verified := true,
    locality_id := some 5 }

/-- A crew worker. -/
def crewUser : UserR :=
  { id := 9, name := "Ram", mobile_number := "9123456780",
    role := UserRole.PWD_WORKER, is_active := true, is_verified := true,
    locality_id := none }

/-- The settings values documented in the route (3 photos max). -/
def cfgW : Config :=
  { max_photos_per_issue := 3,
    allowed_image_types := ["image/jpeg", "image/png"],
    max_file_size := 10485760 }

/-- A store with Asha active for locality 5, the locality itself
deactivated. -/
def dbW : DBState :=
  { users := [repUser],
    localities := [{ id := 5, name := "Ward 5", type := LocalityType.WARD, is_active := false }],
    issues := [], photos := [] }

/-- A blob store that accepts every upload. -/
def uploadOk : PhotoUpload → Except String String := fun _ => .ok "object-key"

/-- A report for locality 5 with no photos. -/
def reqW : CreateIssueRequest :=
  { issue_type := IssueType.WATER, description := "Water pipe is leaking",
    latitude := 0, longitude := 0, locality_id := some 5, photos := [],
    user_id := 7 }

/-- C1: a `CreateIssue` call that passes the photo pre-checks always
persists exactly one new issue row; when the request names a locality
with at least one active representative user, that row has status
ASSIGNED and a non-null `assigned_parshad_id`, and when the request
names no locality or one without an active representative, the row has
status REPORTED and a null `assigned_parshad_id`. -/
theorem C1_create_issue_assignment (cfg : Config)
    (upload : PhotoUpload → Except String String) (gfu : String → String)
    (db : DBState) (new_id : Nat) (req : CreateIssueRequest)
    (hcount : req.photos.length ≤ cfg.max_photos_per_issue)
    (hval : validate_photo_list cfg req.photos = none) :
    (∀ lid, req.locality_id = some lid →
      (∃ u ∈ db.users, u.role = UserRole.REPRESENTATIVE ∧
        u.locality_id = some lid ∧ u.is_active = true) →
      ∃ i, (create_issue cfg upload gfu db new_id req).2.issues =
          db.issues ++ [i] ∧
        i.status = IssueStatus.ASSIGNED ∧ i.assigned_parshad_id.isSome = true)
    ∧ ((req.locality_id = none ∨
        ∃ lid, req.locality_id = some lid ∧
          ∀ u ∈ db.users, ¬(u.role = UserRole.REPRESENTATIVE ∧
            u.locality_id = some lid ∧ u.is_active = true)) →
      ∃ i, (create_issue cfg upload gfu db new_id req).2.issues =
          db.issues ++ [i] ∧
        i.status = IssueStatus.REPORTED ∧ i.assigned_parshad_id = none) := by
  have hstate := create_issue_state_of_valid cfg upload gfu db new_id req hcount hval
  constructor
  · intro lid hlid ⟨u, hu, hrole, hloc, hact⟩
    refine ⟨mk_new_issue db.users new_id req, hstate, ?_⟩
    have hsome := find_parshad_isSome_of_mem db.users lid u hu hrole hloc hact
    obtain ⟨p, hp⟩ := Option.isSome_iff_exists.mp hsome
    simp [mk_new_issue, resolve_assignment, hlid, hp]
  · intro h
    refine ⟨mk_new_issue db.users new_id req, hstate, ?_⟩
    rcases h with hnone | ⟨lid, hlid, hno⟩
    · simp [mk_new_issue, resolve_assignment, hnone]
    · have hn := find_parshad_eq_none_of_no_rep db.users lid hno
      simp [mk_new_issue, resolve_assignment, hlid, hn]

theorem C1_create_issue_assignment_witness :
    (∃ i, (create_issue cfgW uploadOk id dbW 1 reqW).2.issues =
        dbW.issues ++ [i] ∧
      i.status = IssueStatus.ASSIGNED ∧ i.assigned_parshad_id.isSome = true) ∧
    (∃ i, (create_issue cfgW uploadOk id
          { dbW with users := [] } 2 reqW).2.issues =
        ({ dbW with users := [] } : DBState).issues ++ [i] ∧
      i.status = IssueStatus.REPORTED ∧ i.assigned_parshad_id = none) := by
  constructor
  · exact (C1_create_issue_assignment cfgW uploadOk id dbW 1 reqW
      (by decide) rfl).1 5 rfl
      ⟨repUser, by simp [dbW], rfl, rfl, rfl⟩
  · exact (C1_create_issue_assignment cfgW uploadOk id
      { dbW with users := [] } 2 reqW (by decide) rfl).2
      (Or.inr ⟨5, rfl, by simp⟩)

/-- C7: the representative lookup of `create_issue` touches only the
`users` table (role, locality id, active flag), never the `localities`
table: the whole call is invariant under replacing the localities
table, and a locality that is inactive (or absent) with an active
representative still yields an ASSIGNED issue. -/
theorem C7_lookup_ignores_locality_activation (cfg : Config)
    (upload : PhotoUpload → Except String String) (gfu : String → String)
    (users : List UserR) (L1 L2 : List LocalityR) (issues : List IssueR)
    (photos : List PhotoR) (new_id : Nat) (req : CreateIssueRequest) :
    ((create_issue cfg upload gfu ⟨users, L1, issues, photos⟩ new_id req).1 =
       (create_issue cfg upload gfu ⟨users, L2, issues, photos⟩ new_id req).1 ∧
     (create_issue cfg upload gfu ⟨users, L1, issues, photos⟩ new_id req).2.issues =
       (create_issue cfg upload gfu ⟨users, L2, issues, photos⟩ new_id req).2.issues ∧
     (create_issue cfg upload gfu ⟨users, L1, issues, photos⟩ new_id req).2.photos =
       (create_issue cfg upload gfu ⟨users, L2, issues, photos⟩ new_id req).2.photos)
    ∧ (∀ lid, req.locality_id = some lid →
      (∃ u ∈ users, u.role = UserRole.REPRESENTATIVE ∧
        u.locality_id = some lid ∧ u.is_active = true) →
      (∀ loc ∈ L1, loc.id = lid → loc.is_active = false) →
      req.photos.length ≤ cfg.max_photos_per_issue →
      validate_photo_list cfg req.photos = none →
      ∃ i, (create_issue cfg upload gfu ⟨users, L1, issues, photos⟩ new_id req).2.issues =
          issues ++ [i] ∧
        i.status = IssueStatus.ASSIGNED ∧ i.assigned_parshad_id.isSome = true) := by
  constructor
  · by_cases hc : req.photos.length > cfg.max_photos_per_issue
    · simp [create_issue, hc]
    · cases hv : validate_photo_list cfg req.photos with
      | some e => simp [create_issue, hc, hv]
      | none =>
        cases ha : attach_photos upload new_id req.photos [] with
        | error e => simp [create_issue, hc, hv, ha]
        | ok recs => simp [create_issue, hc, hv, ha]
  · intro lid hlid ⟨u, hu, hrole, hloc, hact⟩ _ hcount hval
    have hstate := create_issue_state_of_valid cfg upload gfu
      ⟨users, L1, issues, photos⟩ new_id req hcount hval
    refine ⟨mk_new_issue users new_id req, hstate, ?_⟩
    have hsome := find_parshad_isSome_of_mem users lid u hu hrole hloc hact
    obtain ⟨p, hp⟩ := Option.isSome_iff_exists.mp hsome
    simp [mk_new_issue, resolve_assignment, hlid, hp]

theorem C7_lookup_ignores_locality_activation_witness :
    (∀ loc ∈ dbW.localities, loc.id = 5 → loc.is_active = false) ∧
    (∃ i, (create_issue cfgW uploadOk id
        ⟨dbW.users, dbW.localities, dbW.issues, dbW.photos⟩ 1 reqW).2.issues =
        dbW.issues ++ [i] ∧
      i.status = IssueStatus.ASSIGNED ∧ i.assigned_parshad_id.isSome = true) := by
  refine ⟨by simp [dbW], ?_⟩
  exact (C7_lookup_ignores_locality_activation cfgW uploadOk id
    dbW.users dbW.localities dbW.localities dbW.issues dbW.photos 1 reqW).2
    5 rfl ⟨repUser, by simp [dbW], rfl, rfl, rfl⟩ (by simp [dbW]) (by decide) rfl

theorem validate_photo_list_some_code (cfg : Config) (ps : List PhotoUpload)
    (e : HTTPError) (h : validate_photo_list cfg ps = some e) :
    e.status_code = 400 := by
  induction ps with
  | nil => simp [validate_photo_list] at h
  | cons p rest ih =>
    by_cases h1 : content_type_allowed cfg p
    · by_cases h2 : p.content.length > cfg.max_file_size
      · simp [validate_photo_list, h1, h2] at h
        simp [← h]
      · simp [validate_photo_list, h1, h2] at h
        exact ih h
    · simp [validate_photo_list, h1] at h
      simp [← h]

/-- A small valid JPEG upload. -/
def photoJpeg : PhotoUpload :=
  { filename := some "a.jpg", content_type := some "image/jpeg",
    content := [1, 2, 3] }

/-- C4: a `CreateIssue` call whose photo batch violates a pre-check
(count above `max_photos_per_issue`, a content type outside
`allowed_image_types`, or a byte length above `max_file_size`) fails
with a 400 error and leaves the store exactly unchanged: no issue row
and no photo row is created, and no upload has any persistent
effect. -/
theorem C4_precheck_rejects_before_persistence (cfg : Config)
    (upload : PhotoUpload → Except String String) (gfu : String → String)
    (db : DBState) (new_id : Nat) (req : CreateIssueRequest)
    (h : req.photos.length > cfg.max_photos_per_issue ∨
      (∃ p ∈ req.photos, content_type_allowed cfg p = false) ∨
      (∃ p ∈ req.photos, p.content.length > cfg.max_file_size)) :
    (∃ e, (create_issue cfg upload gfu db new_id req).1 = .error e ∧
      e.status_code = 400) ∧
    (create_issue cfg upload gfu db new_id req).2 = db := by
  by_cases hc : req.photos.length > cfg.max_photos_per_issue
  · refine ⟨⟨⟨400, "Maximum " ++ toString cfg.max_photos_per_issue ++
        " photos allowed"⟩, ?_, rfl⟩, ?_⟩
    · simp [create_issue, hc]
    · simp [create_issue, hc]
  · have hviol : validate_photo_list cfg req.photos ≠ none := by
      intro hnone
      have hall := (validate_photo_list_eq_none_iff cfg req.photos).mp hnone
      rcases h with h | ⟨p, hp, hbad⟩ | ⟨p, hp, hbig⟩
      · exact hc h
      · exact absurd (hall p hp).1 (by simp [hbad])
      · have := (hall p hp).2
        omega
    obtain ⟨e, he⟩ := Option.ne_none_iff_exists'.mp hviol
    refine ⟨⟨e, ?_, validate_photo_list_some_code cfg req.photos e he⟩, ?_⟩
    · simp [create_issue, hc, he]
    · simp [create_issue, hc, he]

theorem C4_precheck_rejects_before_persistence_witness :
    (∃ e, (create_issue cfgW uploadOk id dbW 1
        { reqW with photos := [photoJpeg, photoJpeg, photoJpeg, photoJpeg] }).1 =
        .error e ∧ e.status_code = 400) ∧
    (create_issue cfgW uploadOk id dbW 1
        { reqW with photos := [photoJpeg, photoJpeg, photoJpeg, photoJpeg] }).2 =
      dbW := by
  exact C4_precheck_rejects_before_persistence cfgW uploadOk id dbW 1
    { reqW with photos := [photoJpeg, photoJpeg, photoJpeg, photoJpeg] }
    (Or.inl (by decide))

/-- A blob store that rejects the upload named `b.jpg`. -/
def uploadFailB : PhotoUpload → Except String String := fun p =>
  if p.filename = some "b.jpg" then .error "connection reset" else .ok "object-key"

/-- A second photo whose upload `uploadFailB` rejects. -/
def photoJpegB : PhotoUpload :=
  { filename := some "b.jpg", content_type := some "image/jpeg",
    content := [4, 5] }

/-- A report with two photos, the second of which fails to upload. -/
def reqC3 : CreateIssueRequest := { reqW with photos := [photoJpeg, photoJpegB] }

/-- C3 counterexample: a `CreateIssue` call whose second photo upload
fails after the first was staged does report a single aggregate 500
error and keeps no photo row, but the store is NOT left as it was
before the call: the issue row, committed before the photo loop, is
persisted by the failed call. -/
theorem C3_counterexample :
    (create_issue cfgW uploadFailB id dbW 1 reqC3).1 =
      .error ⟨500, "Failed to upload photo: connection reset"⟩ ∧
    (create_issue cfgW uploadFailB id dbW 1 reqC3).2.photos = [] ∧
    (create_issue cfgW uploadFailB id dbW 1 reqC3).2.issues.length = 1 ∧
    dbW.issues.length = 0 ∧
    (create_issue cfgW uploadFailB id dbW 1 reqC3).2 ≠ dbW := by
  refine ⟨rfl, rfl, rfl, rfl, fun hEq => ?_⟩
  have h1 : (create_issue cfgW uploadFailB id dbW 1 reqC3).2.issues.length =
      dbW.issues.length := by rw [hEq]
  have h2 : (create_issue cfgW uploadFailB id dbW 1 reqC3).2.issues.length = 1 := rfl
  have h3 : dbW.issues.length = 0 := rfl
  omega

/-- C3 amended: when a photo upload (or photo-record insert) fails
after some photos of the call were already staged, every photo row of
the call is rolled back and a single aggregate 500 failure is
reported; the persisted state equals the pre-call state plus exactly
the new issue row, which was committed before the photo loop and
survives the failed call. -/
theorem C3_photo_failure_rollback (cfg : Config)
    (upload : PhotoUpload → Except String String) (gfu : String → String)
    (db : DBState) (new_id : Nat) (req : CreateIssueRequest) (e : String)
    (hcount : req.photos.length ≤ cfg.max_photos_per_issue)
    (hval : validate_photo_list cfg req.photos = none)
    (hfail : attach_photos upload new_id req.photos [] = .error e) :
    (create_issue cfg upload gfu db new_id req).1 =
      .error ⟨500, "Failed to upload photo: " ++ e⟩ ∧
    (create_issue cfg upload gfu db new_id req).2 =
      { db with issues := db.issues ++ [mk_new_issue db.users new_id req] } := by
  unfold create_issue
  rw [if_neg (by omega), hval, hfail]
  exact ⟨rfl, rfl⟩

theorem C3_photo_failure_rollback_witness :
    (create_issue cfgW uploadFailB id dbW 1 reqC3).1 =
      .error ⟨500, "Failed to upload photo: " ++ "connection reset"⟩ ∧
    (create_issue cfgW uploadFailB id dbW 1 reqC3).2 =
      { dbW with issues := dbW.issues ++ [mk_new_issue dbW.users 1 reqC3] } := by
  exact C3_photo_failure_rollback cfgW uploadFailB id dbW 1 reqC3
    "connection reset" (by decide) rfl rfl

/-- The response of the C9 witness call. -/
def respW : IssueResponseM :=
  { id := 1, issue_type := IssueType.WATER,
    description := "Water pipe is leaking", latitude := 0, longitude := 0,
    locality_id := some 5, locality_name := none, locality_type := none,
    status := IssueStatus.ASSIGNED, user_id := some 7,
    assigned_parshad_id := some 42,
    assignment_message := some "Auto-assigned to Parshad Asha of ward 5",
    completion_description := none, completion_photo_url := none,
    completed_at := none, completed_by_id := none, photos := [] }

/-- C9: the read-side response built by `build_issue_response` (used
by `GetIssue` and the paginated list) always carries
`assignment_message = None`; a successful `CreateIssue` is the only
response exposing the message, which equals the `assignment_notes`
persisted on the new issue row. -/
theorem C9_assignment_message_only_in_create :
    (∀ (issue : IssueR) (gfu : String → String) (db : DBState),
      (build_issue_response issue gfu db).assignment_message = none) ∧
    (∀ (cfg : Config) (upload : PhotoUpload → Except String String)
      (gfu : String → String) (db : DBState) (new_id : Nat)
      (req : CreateIssueRequest) (r : IssueResponseM),
      (create_issue cfg upload gfu db new_id req).1 = .ok r →
      r.assignment_message = (mk_new_issue db.users new_id req).assignment_notes ∧
      (create_issue cfg upload gfu db new_id req).2.issues =
        db.issues ++ [mk_new_issue db.users new_id req]) := by
  constructor
  · intro issue gfu db
    rfl
  · intro cfg upload gfu db new_id req r hok
    by_cases hc : req.photos.length > cfg.max_photos_per_issue
    · simp [create_issue, hc] at hok
    · cases hv : validate_photo_list cfg req.photos with
      | some e => simp [create_issue, hc, hv] at hok
      | none =>
        cases ha : attach_photos upload new_id req.photos [] with
        | error e => simp [create_issue, hc, hv, ha] at hok
        | ok recs =>
          simp [create_issue, hc, hv, ha] at hok
          refine ⟨?_, create_issue_state_of_valid cfg upload gfu db new_id req
            (by omega) hv⟩
          rw [← hok]
          rfl

theorem C9_assignment_message_only_in_create_witness :
    respW.assignment_message = (mk_new_issue dbW.users 1 reqW).assignment_notes ∧
    (create_issue cfgW uploadOk id dbW 1 reqW).2.issues =
      dbW.issues ++ [mk_new_issue dbW.users 1 reqW] := by
  exact C9_assignment_message_only_in_create.2 cfgW uploadOk id dbW 1 reqW
    respW rfl

/-- C10: the public locality-detail endpoint answers an inactive
locality with the same `404 "Locality not found"` as a nonexistent
locality id: inactive localities are indistinguishable from absent
ones at this interface. -/
theorem C10_inactive_locality_indistinguishable (db : DBState) (lid lid2 : Nat)
    (h : ∀ loc, (db.localities.filter fun l => decide (l.id = lid)).head? =
      some loc → loc.is_active = false)
    (h2 : (db.localities.filter fun l => decide (l.id = lid2)).head? = none) :
    get_locality_details db lid = .error ⟨404, "Locality not found"⟩ ∧
    get_locality_details db lid = get_locality_details db lid2 := by
  have hmain : get_locality_details db lid = .error ⟨404, "Locality not found"⟩ := by
    unfold get_locality_details
    cases hf : (db.localities.filter fun l => decide (l.id = lid)).head? with
    | none => rfl
    | some loc => simp [h loc hf]
  refine ⟨hmain, ?_⟩
  rw [hmain]
  unfold get_locality_details
  rw [h2]

theorem C10_inactive_locality_indistinguishable_witness :
    get_locality_details dbW 5 = .error ⟨404, "Locality not found"⟩ ∧
    get_locality_details dbW 5 = get_locality_details dbW 99 := by
  exact C10_inactive_locality_indistinguishable dbW 5 99
    (by intro loc hl; simp [dbW] at hl; subst hl; rfl) rfl

theorem stripNonDigits_all_digits (s : List Char) :
    ∀ c ∈ stripNonDigits s, c.isDigit = true := by
  intro c hc
  exact (List.mem_filter.mp hc).2

theorem stripNonDigits_of_all_digits (s : List Char)
    (h : ∀ c ∈ s, c.isDigit = true) : stripNonDigits s = s :=
  List.filter_eq_self.mpr h

theorem normalize_plus_digits (ds : List Char) (hdig : ∀ c ∈ ds, c.isDigit = true) :
    normalize_phone_number ('+' :: ds) = '+' :: ds := by
  show '+' :: stripNonDigits (List.drop 1 ('+' :: ds)) = '+' :: ds
  rw [show List.drop 1 ('+' :: ds) = ds from rfl,
    stripNonDigits_of_all_digits ds hdig]

/-- C8: `normalize_phone_number` always returns a `+` followed only by
decimal digits, and it is idempotent: applied to its own output it
returns that output unchanged. -/
theorem C8_normalize_phone_number_shape_idem (phone : List Char) :
    ∃ ds, normalize_phone_number phone = '+' :: ds ∧
      (∀ c ∈ ds, c.isDigit = true) ∧
      normalize_phone_number (normalize_phone_number phone) =
        normalize_phone_number phone := by
  have key : ∃ ds, normalize_phone_number phone = '+' :: ds ∧
      ∀ c ∈ ds, c.isDigit = true := by
    unfold normalize_phone_number
    by_cases h : phone.take 1 = ['+']
    · rw [if_pos h]
      exact ⟨_, rfl, stripNonDigits_all_digits _⟩
    · rw [if_neg h]
      refine ⟨if ¬((stripNonDigits phone).take 2 = ['9', '1']) ∨
          (stripNonDigits phone).length = 10 then
            '9' :: '1' :: stripNonDigits phone
          else stripNonDigits phone, rfl, ?_⟩
      by_cases h2 : ¬((stripNonDigits phone).take 2 = ['9', '1']) ∨
          (stripNonDigits phone).length = 10
      · rw [if_pos h2]
        intro c hc
        simp only [List.mem_cons] at hc
        rcases hc with rfl | rfl | hc
        · rfl
        · rfl
        · exact stripNonDigits_all_digits phone c hc
      · rw [if_neg h2]
        exact stripNonDigits_all_digits phone
  obtain ⟨ds, hds, hdig⟩ := key
  exact ⟨ds, hds, hdig, by rw [hds, normalize_plus_digits ds hdig]⟩

theorem transition_issue_of_next (issue : IssueR) (actor : Actor)
    (target : IssueStatus) (payload : Option CompletionPayload) (now : Nat)
    (hn : nextStatus issue.status = some target)
    (hrole : role_permits issue actor target = true)
    (hpl : payload_ok target payload = true) :
    transition_issue issue actor target payload now =
      .ok (apply_transition issue actor target payload now) := by
  unfold transition_issue
  rw [if_pos ⟨hn, hrole, hpl⟩]

theorem transition_issue_error_of_not_next (issue : IssueR) (actor : Actor)
    (target : IssueStatus) (payload : Option CompletionPayload) (now : Nat)
    (hn : ¬ nextStatus issue.status = some target) :
    transition_issue issue actor target payload now =
      .error (.InvalidTransition issue.status target) := by
  unfold transition_issue
  rw [if_neg (fun hcond => hn hcond.1)]

theorem transition_issue_store_unfold (db : DBState) (issue_id : Nat)
    (actor : Actor) (target : IssueStatus) (payload : Option CompletionPayload)
    (now : Nat) (issue : IssueR)
    (hfind : (db.issues.filter fun i => decide (i.id = issue_id)).head? =
      some issue) :
    transition_issue_store db issue_id actor target payload now =
      match transition_issue issue actor target payload now with
      | .error e => (.error e, db)
      | .ok issue1 =>
        (.ok issue1,
         { db with issues := db.issues.map fun i =>
             if i.id = issue_id then issue1 else i }) := by
  unfold transition_issue_store
  rw [hfind]

/-- C2 (spec-modelled): for an issue stored under `issue_id`, a
`TransitionIssue` call by an authorized actor with a target-compatible
payload succeeds exactly when the target is the immediate successor of
the issue's current status in the fixed six-state ordering; any other
target fails with `InvalidTransition`, leaves the store unchanged, and
repeating the bad call returns the same error and the same stored
state. -/
theorem C2_transition_succ_iff (db : DBState) (issue_id : Nat) (actor : Actor)
    (target : IssueStatus) (payload : Option CompletionPayload) (now : Nat)
    (issue : IssueR)
    (hfind : (db.issues.filter fun i => decide (i.id = issue_id)).head? =
      some issue)
    (hrole : role_permits issue actor target = true)
    (hpl : payload_ok target payload = true) :
    ((∃ i1, (transition_issue_store db issue_id actor target payload now).1 =
        .ok i1) ↔ nextStatus issue.status = some target)
    ∧ (nextStatus issue.status ≠ some target →
        (transition_issue_store db issue_id actor target payload now).1 =
          .error (.InvalidTransition issue.status target) ∧
        (transition_issue_store db issue_id actor target payload now).2 = db ∧
        transition_issue_store
            (transition_issue_store db issue_id actor target payload now).2
            issue_id actor target payload now =
          transition_issue_store db issue_id actor target payload now) := by
  have hstore := transition_issue_store_unfold db issue_id actor target payload
    now issue hfind
  by_cases hn : nextStatus issue.status = some target
  · refine ⟨⟨fun _ => hn, fun _ => ?_⟩, fun h => absurd hn h⟩
    rw [hstore, transition_issue_of_next issue actor target payload now hn
      hrole hpl]
    exact ⟨apply_transition issue actor target payload now, rfl⟩
  · have herr := transition_issue_error_of_not_next issue actor target payload
      now hn
    refine ⟨⟨fun ⟨i1, h1⟩ => ?_, fun h => absurd h hn⟩, fun _ => ?_⟩
    · rw [hstore, herr] at h1
      exact absurd h1 (by simp)
    · rw [hstore, herr]
      exact ⟨rfl, rfl, by rw [hstore, herr]⟩

/-- A freshly reported issue with no locality. -/
def issueT : IssueR :=
  { id := 1, issue_type := IssueType.WATER,
    description := "Water pipe is leaking", latitude := 0, longitude := 0,
    locality_id := none, status := IssueStatus.REPORTED, user_id := some 7,
    assigned_parshad_id := none, assignment_notes := none,
    progress_notes := none, completion_description := none,
    completion_photo_url := none, completed_at := none, completed_by_id := none }

/-- A store holding just `issueT`. -/
def dbT : DBState :=
  { users := [], localities := [], issues := [issueT], photos := [] }

theorem C2_transition_succ_iff_witness :
    (∃ i1, (transition_issue_store dbT 1 Actor.system IssueStatus.ASSIGNED
        none 0).1 = .ok i1) ∧
    (transition_issue_store dbT 1 (Actor.user crewUser)
        IssueStatus.PWD_COMPLETED (some ⟨"done", none⟩) 0).1 =
      .error (.InvalidTransition IssueStatus.REPORTED
        IssueStatus.PWD_COMPLETED) ∧
    (transition_issue_store dbT 1 (Actor.user crewUser)
        IssueStatus.PWD_COMPLETED (some ⟨"done", none⟩) 0).2 = dbT := by
  constructor
  · exact ((C2_transition_succ_iff dbT 1 Actor.system IssueStatus.ASSIGNED
      none 0 issueT rfl rfl rfl).1).mpr rfl
  · have h := (C2_transition_succ_iff dbT 1 (Actor.user crewUser)
      IssueStatus.PWD_COMPLETED (some ⟨"done", none⟩) 0 issueT rfl rfl rfl).2
      (by decide)
    exact ⟨h.1, h.2.1⟩

/-- The amended completion-field invariant: `completion_description`,
`completed_at` and `completed_by_id` are all null or all non-null
together (null exactly until the issue reaches PWD_COMPLETED), and
`completion_photo_url` — optional in the completion payload — can be
non-null only alongside them. -/
def completion_consistent (i : IssueR) : Prop :=
  (i.completion_description = none ∧ i.completion_photo_url = none ∧
    i.completed_at = none ∧ i.completed_by_id = none ∧
    statusIdx i.status < 4)
  ∨ (i.completion_description ≠ none ∧ i.completed_at ≠ none ∧
    i.completed_by_id ≠ none ∧ 4 ≤ statusIdx i.status)

theorem nextStatus_idx (s t : IssueStatus) (h : nextStatus s = some t) :
    statusIdx t = statusIdx s + 1 := by
  cases s <;> cases t <;> simp_all [nextStatus, statusIdx]

theorem nextStatus_eq_completed (s : IssueStatus)
    (h : nextStatus s = some IssueStatus.PWD_COMPLETED) :
    s = IssueStatus.PWD_WORKING := by
  cases s <;> simp_all [nextStatus]

theorem statusIdx_eq_three (s : IssueStatus) (h : statusIdx s = 3) :
    s = IssueStatus.PWD_WORKING := by
  cases s <;> simp_all [statusIdx]

theorem statusIdx_ge_four (s : IssueStatus) (h : 4 ≤ statusIdx s) :
    s = IssueStatus.PWD_COMPLETED ∨ s = IssueStatus.REPRESENTATIVE_REVIEWED := by
  cases s <;> simp_all [statusIdx]

theorem apply_transition_ne_completed (i : IssueR) (actor : Actor)
    (target : IssueStatus) (payload : Option CompletionPayload) (now : Nat)
    (h : target ≠ IssueStatus.PWD_COMPLETED) :
    apply_transition i actor target payload now = { i with status := target } := by
  unfold apply_transition
  cases payload <;> cases hT : target <;> first
    | rfl
    | exact absurd hT h

theorem run_transition_preserves (i : IssueR) (ev : TransitionEvent)
    (h : completion_consistent i) :
    completion_consistent (run_transition i ev) := by
  unfold run_transition
  cases ht : transition_issue i ev.actor ev.target ev.payload ev.time with
  | error e => exact h
  | ok i1 =>
    unfold transition_issue at ht
    by_cases hcond : nextStatus i.status = some ev.target ∧
        role_permits i ev.actor ev.target = true ∧
        payload_ok ev.target ev.payload = true
    · rw [if_pos hcond] at ht
      obtain ⟨hn, hrole, hpl⟩ := hcond
      injection ht with ht
      subst ht
      by_cases htgt : ev.target = IssueStatus.PWD_COMPLETED
      · rw [htgt] at hn hrole hpl ⊢
        obtain ⟨pl, hpl'⟩ := Option.isSome_iff_exists.mp hpl
        cases hAct : ev.actor with
        | system => rw [hAct] at hrole; simp [role_permits] at hrole
        | user u =>
          right
          rw [hpl']
          simp [apply_transition, actorId, statusIdx]
      · rw [apply_transition_ne_completed i ev.actor ev.target ev.payload
          ev.time htgt]
        have hidx := nextStatus_idx i.status ev.target hn
        rcases h with ⟨h1, h2, h3, h4, h5⟩ | ⟨h1, h2, h3, h4⟩
        · left
          refine ⟨h1, h2, h3, h4, ?_⟩
          have hne3 : statusIdx i.status ≠ 3 := by
            intro h3'
            have hW := statusIdx_eq_three i.status h3'
            rw [hW] at hn
            exact htgt (Option.some.inj hn).symm
          simp only []
          omega
        · right
          refine ⟨h1, h2, h3, ?_⟩
          simp only []
          omega
    · rw [if_neg hcond] at ht
      cases ht

theorem run_events_consistent (i : IssueR) (evs : List TransitionEvent)
    (h : completion_consistent i) :
    completion_consistent (run_events i evs) := by
  induction evs generalizing i with
  | nil => exact h
  | cons ev rest ih => exact ih (run_transition i ev) (run_transition_preserves i ev h)

theorem mk_new_issue_consistent (users : List UserR) (new_id : Nat)
    (req : CreateIssueRequest) :
    completion_consistent (mk_new_issue users new_id req) := by
  left
  refine ⟨rfl, rfl, rfl, rfl, ?_⟩
  cases hl : req.locality_id with
  | none => simp [mk_new_issue, resolve_assignment, hl, statusIdx]
  | some lid =>
    cases hf : find_parshad users lid <;>
      simp [mk_new_issue, resolve_assignment, hl, hf, statusIdx]

/-- C6 (spec-modelled, amended): from creation through any sequence of
transition calls, `completion_description`, `completed_at` and
`completed_by_id` are all null or all non-null together and
`completion_photo_url` is non-null only alongside them (the payload's
photo is optional, so the claim's "all four non-null" does not hold);
the only call that touches the four fields is the successful
`PWD_WORKING → PWD_COMPLETED` transition, which sets `completed_at` to
the current time and `completed_by_id` to the acting worker, and once
the issue has passed PWD_COMPLETED no call changes them again. -/
theorem C6_completion_fields_once (users : List UserR) (new_id : Nat)
    (req : CreateIssueRequest) (evs : List TransitionEvent) :
    completion_consistent (run_events (mk_new_issue users new_id req) evs)
    ∧ (∀ (i : IssueR) (ev : TransitionEvent),
        ev.target ≠ IssueStatus.PWD_COMPLETED →
        (run_transition i ev).completion_description = i.completion_description ∧
        (run_transition i ev).completion_photo_url = i.completion_photo_url ∧
        (run_transition i ev).completed_at = i.completed_at ∧
        (run_transition i ev).completed_by_id = i.completed_by_id)
    ∧ (∀ (i : IssueR) (u : UserR) (pl : CompletionPayload) (t : Nat),
        i.status = IssueStatus.PWD_WORKING → u.role = UserRole.PWD_WORKER →
        transition_issue i (Actor.user u) IssueStatus.PWD_COMPLETED
            (some pl) t =
          .ok { i with
            status := IssueStatus.PWD_COMPLETED
            completion_description := some pl.description
            completion_photo_url := pl.photo_url
            completed_at := some t
            completed_by_id := some u.id })
    ∧ (∀ (i : IssueR) (ev : TransitionEvent), 4 ≤ statusIdx i.status →
        (run_transition i ev).completion_description = i.completion_description ∧
        (run_transition i ev).completion_photo_url = i.completion_photo_url ∧
        (run_transition i ev).completed_at = i.completed_at ∧
        (run_transition i ev).completed_by_id = i.completed_by_id) := by
  refine ⟨run_events_consistent (mk_new_issue users new_id req) evs
    (mk_new_issue_consistent users new_id req), ?_, ?_, ?_⟩
  · intro i ev htgt
    unfold run_transition
    cases ht : transition_issue i ev.actor ev.target ev.payload ev.time with
    | error e => exact ⟨rfl, rfl, rfl, rfl⟩
    | ok i1 =>
      unfold transition_issue at ht
      by_cases hcond : nextStatus i.status = some ev.target ∧
          role_permits i ev.actor ev.target = true ∧
          payload_ok ev.target ev.payload = true
      · rw [if_pos hcond] at ht
        injection ht with ht
        subst ht
        rw [apply_transition_ne_completed i ev.actor ev.target ev.payload
          ev.time htgt]
        exact ⟨rfl, rfl, rfl, rfl⟩
      · rw [if_neg hcond] at ht
        cases ht
  · intro i u pl t hW hrole
    have hn : nextStatus i.status = some IssueStatus.PWD_COMPLETED := by
      rw [hW]; rfl
    rw [transition_issue_of_next i (Actor.user u) IssueStatus.PWD_COMPLETED
      (some pl) t hn (by simp [role_permits, hrole]) rfl]
    rfl
  · intro i ev hidx
    unfold run_transition
    cases ht : transition_issue i ev.actor ev.target ev.payload ev.time with
    | error e => exact ⟨rfl, rfl, rfl, rfl⟩
    | ok i1 =>
      unfold transition_issue at ht
      by_cases hcond : nextStatus i.status = some ev.target ∧
          role_permits i ev.actor ev.target = true ∧
          payload_ok ev.target ev.payload = true
      · rw [if_pos hcond] at ht
        obtain ⟨hn, _, _⟩ := hcond
        injection ht with ht
        subst ht
        have htgt : ev.target ≠ IssueStatus.PWD_COMPLETED := by
          intro hT
          rw [hT] at hn
          have hW := nextStatus_eq_completed i.status hn
          rw [hW] at hidx
          simp [statusIdx] at hidx
        rw [apply_transition_ne_completed i ev.actor ev.target ev.payload
          ev.time htgt]
        exact ⟨rfl, rfl, rfl, rfl⟩
      · rw [if_neg hcond] at ht
        cases ht

/-- The event chain from creation to completion, the completion
payload carrying no photo. -/
def evsC6 : List TransitionEvent :=
  [⟨Actor.user repUser, IssueStatus.REPRESENTATIVE_ACKNOWLEDGED, none, 1⟩,
   ⟨Actor.user crewUser, IssueStatus.PWD_WORKING, none, 2⟩,
   ⟨Actor.user crewUser, IssueStatus.PWD_COMPLETED,
     some ⟨"Pipe fixed", none⟩, 99⟩]

/-- C6 counterexample: a reachable issue state (created for locality 5
and driven through acknowledgement, work and completion with a
photo-less payload) has `completion_description`, `completed_at` and
`completed_by_id` non-null while `completion_photo_url` is null — the
four completion fields are not all non-null together. -/
theorem C6_counterexample :
    (run_events (mk_new_issue dbW.users 1 reqW) evsC6).completion_description =
      some "Pipe fixed" ∧
    (run_events (mk_new_issue dbW.users 1 reqW) evsC6).completed_at = some 99 ∧
    (run_events (mk_new_issue dbW.users 1 reqW) evsC6).completed_by_id = some 9 ∧
    (run_events (mk_new_issue dbW.users 1 reqW) evsC6).completion_photo_url =
      none := by
  exact ⟨rfl, rfl, rfl, rfl⟩

/-- The issue of the C6 witness, already at PWD_WORKING. -/
def issueW3 : IssueR := { issueT with status := IssueStatus.PWD_WORKING }

theorem C6_completion_fields_once_witness :
    completion_consistent (run_events (mk_new_issue dbW.users 1 reqW) evsC6) ∧
    transition_issue issueW3 (Actor.user crewUser) IssueStatus.PWD_COMPLETED
        (some ⟨"Pipe fixed", none⟩) 99 =
      .ok { issueW3 with
        status := IssueStatus.PWD_COMPLETED
        completion_description := some "Pipe fixed"
        completion_photo_url := none
        completed_at := some 99
        completed_by_id := some 9 } := by
  refine ⟨(C6_completion_fields_once dbW.users 1 reqW evsC6).1, ?_⟩
  exact (C6_completion_fields_once dbW.users 1 reqW evsC6).2.2.1 issueW3
    crewUser ⟨"Pipe fixed", none⟩ 99 rfl rfl

theorem haversine_near_le_one : haversine_distance 0 0 0.001 0.001 ≤ 1 := by
  have hπ1 : (3.14 : ℝ) < Real.pi := Real.pi_gt_d2
  have hπ2 : Real.pi < 3.15 := Real.pi_lt_d2
  unfold haversine_distance radians
  rw [zero_mul, sub_zero, Real.cos_zero, one_mul]
  set y : ℝ := 0.001 * (Real.pi / 180) with hy
  have hy2pos : 0 < y / 2 := by rw [hy]; positivity
  have hy2pi : y / 2 ≤ Real.pi := by rw [hy]; nlinarith [Real.pi_pos]
  have hsin0 : 0 ≤ Real.sin (y / 2) :=
    Real.sin_nonneg_of_nonneg_of_le_pi hy2pos.le hy2pi
  have hsinle : Real.sin (y / 2) ≤ y / 2 := (Real.sin_lt hy2pos).le
  have hcos1 : Real.cos y ≤ 1 := Real.cos_le_one y
  have hyb : y / 2 ≤ 3.15 / 360000 := by rw [hy]; nlinarith
  set s : ℝ := Real.sin (1 / 12742) with hs
  have hsgt : (1 : ℝ) / 12742 - (1 / 12742) ^ 3 / 4 < s :=
    Real.sin_gt_sub_cube (by norm_num) (by norm_num)
  have hs0 : 0 < s := lt_trans (by norm_num) hsgt
  have ha : Real.sin (y / 2) ^ 2 + Real.cos y * Real.sin (y / 2) ^ 2 ≤ s ^ 2 := by
    have h1 : Real.sin (y / 2) ^ 2 ≤ (y / 2) ^ 2 := by nlinarith
    have h2 : (y / 2) ^ 2 ≤ (3.15 / 360000) ^ 2 := by nlinarith
    have h3 : ((1 : ℝ) / 12742 - (1 / 12742) ^ 3 / 4) ^ 2 ≤ s ^ 2 := by nlinarith
    have h4 : (2 : ℝ) * (3.15 / 360000) ^ 2 ≤
        ((1 : ℝ) / 12742 - (1 / 12742) ^ 3 / 4) ^ 2 := by norm_num
    nlinarith [sq_nonneg (Real.sin (y / 2))]
  have hsqrt : Real.sqrt (Real.sin (y / 2) ^ 2 +
      Real.cos y * Real.sin (y / 2) ^ 2) ≤ s := by
    calc Real.sqrt (Real.sin (y / 2) ^ 2 + Real.cos y * Real.sin (y / 2) ^ 2)
        ≤ Real.sqrt (s ^ 2) := Real.sqrt_le_sqrt ha
      _ = s := Real.sqrt_sq hs0.le
  have harc : Real.arcsin (Real.sqrt (Real.sin (y / 2) ^ 2 +
      Real.cos y * Real.sin (y / 2) ^ 2)) ≤ 1 / 12742 := by
    have h5 := Real.monotone_arcsin hsqrt
    rw [hs] at h5
    rw [Real.arcsin_sin (by nlinarith) (by nlinarith)] at h5
    exact h5
  nlinarith [harc, Real.arcsin_le_pi_div_two (Real.sqrt (Real.sin (y / 2) ^ 2 +
    Real.cos y * Real.sin (y / 2) ^ 2))]

theorem haversine_far_gt_one : 1 < haversine_distance 0 0 1 1 := by
  have hπ1 : (3.14 : ℝ) < Real.pi := Real.pi_gt_d2
  have hπ2 : Real.pi < 3.15 := Real.pi_lt_d2
  unfold haversine_distance radians
  rw [zero_mul, sub_zero, Real.cos_zero, one_mul, one_mul]
  set y : ℝ := Real.pi / 180 with hy
  have hy2pos : 0 < y / 2 := by rw [hy]; positivity
  have hcos0 : 0 ≤ Real.cos y :=
    Real.cos_nonneg_of_mem_Icc ⟨by rw [hy]; nlinarith, by rw [hy]; nlinarith⟩
  have hsin0 : 0 ≤ Real.sin (y / 2) :=
    Real.sin_nonneg_of_nonneg_of_le_pi hy2pos.le (by rw [hy]; nlinarith)
  have ha : Real.sin (y / 2) ^ 2 ≤
      Real.sin (y / 2) ^ 2 + Real.cos y * Real.sin (y / 2) ^ 2 := by
    nlinarith [sq_nonneg (Real.sin (y / 2))]
  have hsqrt : Real.sin (y / 2) ≤ Real.sqrt (Real.sin (y / 2) ^ 2 +
      Real.cos y * Real.sin (y / 2) ^ 2) := by
    calc Real.sin (y / 2) = Real.sqrt (Real.sin (y / 2) ^ 2) :=
        (Real.sqrt_sq hsin0).symm
      _ ≤ _ := Real.sqrt_le_sqrt ha
  have harc : y / 2 ≤ Real.arcsin (Real.sqrt (Real.sin (y / 2) ^ 2 +
      Real.cos y * Real.sin (y / 2) ^ 2)) := by
    have h5 := Real.monotone_arcsin hsqrt
    rw [Real.arcsin_sin (by rw [hy]; nlinarith) (by rw [hy]; nlinarith)] at h5
    exact h5
  have hyval : (3.14 : ℝ) / 360 < y / 2 := by rw [hy]; nlinarith
  nlinarith [harc]

/-- An issue about 157 m from the origin. -/
def issueNear : IssueR :=
  { id := 21, issue_type := IssueType.ROAD, description := "Pothole near gate",
    latitude := 0.001, longitude := 0.001, locality_id := none,
    status := IssueStatus.REPORTED, user_id := none,
    assigned_parshad_id := none, assignment_notes := none,
    progress_notes := none, completion_description := none,
    completion_photo_url := none, completed_at := none, completed_by_id := none }

/-- An issue about 157 km from the origin. -/
def issueFar : IssueR :=
  { id := 22, issue_type := IssueType.ROAD, description := "Pothole far away",
    latitude := 1, longitude := 1, locality_id := none,
    status := IssueStatus.REPORTED, user_id := none,
    assigned_parshad_id := none, assignment_notes := none,
    progress_notes := none, completion_description := none,
    completion_photo_url := none, completed_at := none, completed_by_id := none }

/-- C5: the map query returns exactly the issues passing the optional
equality filters whose Haversine distance (sphere of radius 6371 km,
degree inputs, kilometer outputs) from the center is at most
`radius`; in particular, from center (0,0) with radius 1 km the issue
at (0.001°, 0.001°) is returned and the issue at (1°, 1°) is not. -/
theorem C5_nearby_query :
    (∀ (lat lon radius : ℝ) (t? : Option IssueType) (s? : Option IssueStatus)
      (issues : List IssueR) (i : IssueR),
      i ∈ get_issues_for_map lat lon radius t? s? issues ↔
        (i ∈ issues ∧ matches_filters t? s? i = true ∧
          haversine_distance lat lon i.latitude i.longitude ≤ radius))
    ∧ issueNear ∈ get_issues_for_map 0 0 1 none none [issueNear, issueFar]
    ∧ issueFar ∉ get_issues_for_map 0 0 1 none none [issueNear, issueFar] := by
  have hmem : ∀ (lat lon radius : ℝ) (t? : Option IssueType)
      (s? : Option IssueStatus) (issues : List IssueR) (i : IssueR),
      i ∈ get_issues_for_map lat lon radius t? s? issues ↔
        (i ∈ issues ∧ matches_filters t? s? i = true ∧
          haversine_distance lat lon i.latitude i.longitude ≤ radius) := by
    intro lat lon radius t? s? issues i
    unfold get_issues_for_map
    simp [List.mem_filter, and_assoc]
    intro _
    exact and_comm
  refine ⟨hmem, ?_, ?_⟩
  · rw [hmem]
    exact ⟨by simp, rfl, haversine_near_le_one⟩
  · rw [hmem]
    rintro ⟨-, -, hdist⟩
    exact absurd hdist (not_le.mpr haversine_far_gt_one)
